import Mathlib

/-!
Verification of the FroboMind position goal action server
(`fmExecutors/platform/position_action_server/scripts/positionGoalActionServer.py`).

The program is embedded shallowly over the real numbers:
* the `vector` utility class (2D vectors: subtraction, length, angle, rotate);
* the per-tick control computation of `positionGoalActionServer.execute`
  (heading extraction, signed angle error, clamping);
* the goal-execution loop, modelled as a recursion over a list of per-tick
  environment snapshots (shutdown flag, action-server transport flags, pose);
* the `preempt_cb` and `onOdometry` callbacks as pure functions.
-/

/-- 2D vector, mirroring the `vector` utility class (fields `vec[0]`, `vec[1]`). -/
structure vector where
  x : ℝ
  y : ℝ

/-- `np.dot(self.vec, other.vec)` for 2-element vectors. -/
noncomputable def vector.dot (a b : vector) : ℝ := a.x * b.x + a.y * b.y

/-- `vector.__sub__`: componentwise difference. -/
noncomputable def vector.sub (a b : vector) : vector := ⟨a.x - b.x, a.y - b.y⟩

/-- `vector.length`: `math.sqrt(np.dot(self.vec, self.vec))`. -/
noncomputable def vector.length (v : vector) : ℝ := Real.sqrt (v.dot v)

/-- The guarded inverse cosine of `vector.angle`: the cosine similarity value
`tmp` is tested against the `[-1, 1]` bounds before `math.acos` is applied. -/
noncomputable def acosGuard (tmp : ℝ) : ℝ :=
  if tmp > 1 then Real.arccos 1
  else if tmp < -1 then Real.arccos (-1)
  else Real.arccos tmp

/-- `vector.angle`: `acos` of `np.dot(a, b) / (a.length() * b.length())`,
with the out-of-range branches of the source (lines 28-34). -/
noncomputable def vector.angle (a b : vector) : ℝ :=
  if a.dot b / (a.length * b.length) > 1 then Real.arccos 1
  else if a.dot b / (a.length * b.length) < -1 then Real.arccos (-1)
  else Real.arccos (a.dot b / (a.length * b.length))

/-- `vector.rotate`: standard 2D rotation matrix application (lines 36-39). -/
noncomputable def vector.rotate (v : vector) (rad : ℝ) : vector :=
  ⟨Real.cos rad * v.x - Real.sin rad * v.y,
   Real.sin rad * v.x + Real.cos rad * v.y⟩

theorem vector.angle_eq_acosGuard (a b : vector) :
    a.angle b = acosGuard (a.dot b / (a.length * b.length)) := rfl

/-- Orientation quaternion `(x, y, z, w)`, stored by `onOdometry` as
`self.quaternion[0..3]`. -/
structure Quat where
  qx : ℝ
  qy : ℝ
  qz : ℝ
  qw : ℝ

/-- The parameters read at startup (lines 47-49): `max_linear_velocity`
(default 2), `max_angular_velocity` (default 1), `max_distance_error`
(default 0.1). -/
structure Config where
  max_linear_velocity : ℝ
  max_angular_velocity : ℝ
  max_distance_error : ℝ

/-- `math.atan2 y x`, as the argument of the complex number `x + y*I`. -/
noncomputable def atan2 (y x : ℝ) : ℝ := Complex.arg ⟨x, y⟩

/-- Roll extraction from the quaternion (lines 100-101):
`atan2(2*(q0*q1 + q2*q3), 1 - 2*(q1^2 + q2^2))`. -/
noncomputable def rollFromQuaternion (q : Quat) : ℝ :=
  atan2 (2 * (q.qx * q.qy + q.qz * q.qw)) (1 - 2 * (q.qy ^ 2 + q.qz ^ 2))

/-- The heading vector `(cos(roll), sin(roll))` of line 102. -/
noncomputable def headVec (roll : ℝ) : vector := ⟨Real.cos roll, Real.sin roll⟩

/-- The signed angle error of lines 105-111: the unsigned `head.angle(path)`,
negated exactly when rotating `head` by that angle does not align it with
`path` (`path.angle(t1) != 0`). -/
noncomputable def signedAngleError (head pa : vector) : ℝ :=
  if pa.angle (head.rotate (head.angle pa)) ≠ 0 then -(head.angle pa)
  else head.angle pa

/-- The two sequential limit tests of lines 118-125, for one component:
first the value is capped above at `m`, then the result is capped below
at `-m`. -/
noncomputable def clampCode (x m : ℝ) : ℝ :=
  if (if x > m then m else x) < -m then -m else (if x > m then m else x)

/-- The path vector of line 94: `destination - position`. -/
noncomputable def pathVec (dest pos : vector) : vector := dest.sub pos

/-- The distance error of line 95: `path.length()`. -/
noncomputable def distanceError (dest pos : vector) : ℝ := (pathVec dest pos).length

/-- The angle error computed by one motion tick (lines 99-111). -/
noncomputable def angleError (dest pos : vector) (q : Quat) : ℝ :=
  signedAngleError (headVec (rollFromQuaternion q)) (pathVec dest pos)

/-- The twist emitted by one motion tick (lines 113-125): the distance and
angle errors, each clamped by `clampCode` to the configured maxima.
First component is `twist.linear.x`, second is `twist.angular.z`. -/
noncomputable def tickCommand (cfg : Config) (dest pos : vector) (q : Quat) : ℝ × ℝ :=
  (clampCode (distanceError dest pos) cfg.max_linear_velocity,
   clampCode (angleError dest pos q) cfg.max_angular_velocity)

/-- The action-server transport flags visible to the controller:
whether a new goal is waiting and whether an explicit cancellation of the
active goal has been requested. -/
structure TransportState where
  newGoalAvailable : Bool
  preemptRequest : Bool
deriving DecidableEq

/-- Modelled from the spec: the action transport's `is_preempt_requested`
query. The spec treats the goal transport as an abstract port that
"supports goal supersession (new goal while one is active counts as
implicit cancel-then-start)", so a preempt is considered requested when
either an explicit cancellation is pending or a new goal is available. -/
def preemptRequested (s : TransportState) : Bool :=
  s.preemptRequest || s.newGoalAvailable

/-- The environment values an iteration of the `execute` loop observes:
`rospy.is_shutdown()` at the `while` test, the transport flags, and the
pose snapshot (`self.position`, `self.quaternion`) cached by `onOdometry`. -/
structure Tick where
  shutdown : Bool
  transport : TransportState
  pos : vector
  quat : Quat

/-- How the `execute` loop terminated: the `while` test saw shutdown, the
new-goal check broke out (recording the transport flags at that moment),
or the position was reached (`set_succeeded` branch). -/
inductive ExitKind where
  | shutdownExit : ExitKind
  | newGoalExit : TransportState → ExitKind
  | successExit : ExitKind
deriving DecidableEq

/-- The terminal outcome reported for one goal execution. -/
inductive Outcome where
  | succeeded : Outcome
  | preempted : Outcome
  | aborted : Outcome
deriving DecidableEq

/-- The return statement of lines 144-150: `'preempted'` if a preempt is
requested at exit, else `'aborted'` if shutdown is in effect, else
`'succeeded'`. -/
def reportOutcome (preemptAtExit shutdownAtExit : Bool) : Outcome :=
  if preemptAtExit then Outcome.preempted
  else if shutdownAtExit then Outcome.aborted
  else Outcome.succeeded

/-- The `while` loop of `execute` (lines 88-143), run against a list of
per-tick environment snapshots. Returns the list of published twist
commands (linear.x, angular.z) and the exit kind, or `none` when the
snapshot list is exhausted before the loop exits. Each iteration:
the `while not rospy.is_shutdown()` test, the new-goal check (break), and
either the motion branch (publish the clamped command unless a preempt is
requested, then sleep) or the success branch (publish a zero twist, break). -/
noncomputable def loopRun (cfg : Config) (dest : vector) :
    List Tick → Option (List (ℝ × ℝ) × ExitKind)
  | [] => none
  | t :: ts =>
    if t.shutdown then some ([], ExitKind.shutdownExit)
    else if t.transport.newGoalAvailable then some ([], ExitKind.newGoalExit t.transport)
    else if distanceError dest t.pos > cfg.max_distance_error then
      match loopRun cfg dest ts with
      | none => none
      | some (cmds, ek) =>
        some ((if preemptRequested t.transport then []
               else [tickCommand cfg dest t.pos t.quat]) ++ cmds, ek)
    else
      some ([(0, 0)], ExitKind.successExit)

/-- `positionGoalActionServer.execute` (lines 83-150): run the loop, then
report the outcome from the transport flags and the shutdown flag as they
stand at the return statement. -/
noncomputable def execute (cfg : Config) (dest : vector) (ticks : List Tick)
    (exitTransport : TransportState) (exitShutdown : Bool) :
    Option (List (ℝ × ℝ) × Outcome) :=
  (loopRun cfg dest ticks).map
    (fun r => (r.1, reportOutcome (preemptRequested exitTransport) exitShutdown))

/-- `positionGoalActionServer.preempt_cb` (lines 74-81): publish a zero
twist, then `set_preempted` (mark the active execution preempted). -/
def preempt_cb : List (ℝ × ℝ) × Outcome := ([(0, 0)], Outcome.preempted)

/-- The odometry message fields read by `onOdometry`: orientation
quaternion and position. -/
structure OdomMsg where
  ox : ℝ
  oy : ℝ
  oz : ℝ
  ow : ℝ
  px : ℝ
  py : ℝ

/-- The mutable state of `positionGoalActionServer` (lines 57-65). -/
structure CtrlState where
  twistLin : ℝ
  twistAng : ℝ
  destination : vector
  position : vector
  quaternion : Quat
  distance_error : ℝ
  angle_error : ℝ
  z : ℝ
  w : ℝ
  max_linear_velocity : ℝ
  max_angular_velocity : ℝ
  max_distance_error : ℝ

/-- `positionGoalActionServer.onOdometry` (lines 152-161): overwrite the
cached quaternion and position from the message; publish nothing. -/
def onOdometry (s : CtrlState) (msg : OdomMsg) : CtrlState × List (ℝ × ℝ) :=
  ({ s with quaternion := ⟨msg.ox, msg.oy, msg.oz, msg.ow⟩,
            position := ⟨msg.px, msg.py⟩ }, [])

theorem angle_e1_e2 : vector.angle ⟨1, 0⟩ ⟨0, 1⟩ = Real.pi / 2 := by
  simp only [vector.angle, vector.length, vector.dot]
  norm_num [Real.arccos_zero]

theorem angle_e1_nege2 : vector.angle ⟨1, 0⟩ ⟨0, -1⟩ = Real.pi / 2 := by
  simp only [vector.angle, vector.length, vector.dot]
  norm_num [Real.arccos_zero]

theorem angle_e2_e2 : vector.angle ⟨0, 1⟩ ⟨0, 1⟩ = 0 := by
  simp only [vector.angle, vector.length, vector.dot]
  norm_num [Real.sqrt_one, Real.arccos_one]

theorem angle_nege2_e2 : vector.angle ⟨0, -1⟩ ⟨0, 1⟩ = Real.pi := by
  simp only [vector.angle, vector.length, vector.dot]
  norm_num [Real.sqrt_one, Real.arccos_neg_one]

theorem rotate_e1_pi_div_two : vector.rotate ⟨1, 0⟩ (Real.pi / 2) = ⟨0, 1⟩ := by
  simp [vector.rotate, Real.cos_pi_div_two, Real.sin_pi_div_two]

/-- Claim C1: for a robot heading along `(1,0)`, a path `(0,1)` (90°
counter-clockwise) gives signed angle error exactly `+π/2` and a path
`(0,-1)` (90° clockwise) gives exactly `-π/2`; the sign comes from rotating
the heading by the unsigned angle and flipping exactly when the rotated
vector's angle to the path is non-zero. -/
theorem sign_resolution_correct :
    signedAngleError ⟨1, 0⟩ ⟨0, 1⟩ = Real.pi / 2 ∧
    signedAngleError ⟨1, 0⟩ ⟨0, -1⟩ = -(Real.pi / 2) ∧
    (∀ head pa : vector,
      signedAngleError head pa =
        if vector.angle pa (vector.rotate head (vector.angle head pa)) ≠ 0
        then -(vector.angle head pa) else vector.angle head pa) := by
  refine ⟨?_, ?_, fun head pa => rfl⟩
  · unfold signedAngleError
    rw [angle_e1_e2, rotate_e1_pi_div_two, angle_e2_e2]
    simp
  · unfold signedAngleError
    rw [angle_e1_nege2, rotate_e1_pi_div_two, angle_nege2_e2]
    simp [Real.pi_ne_zero]

/-- Claim C6: for all vectors `a` and `b`, `angle` is symmetric and its result
lies in the interval `[0, π]`. -/
theorem angle_symm_and_range (a b : vector) :
    a.angle b = b.angle a ∧ 0 ≤ a.angle b ∧ a.angle b ≤ Real.pi := by
  have hdot : vector.dot a b = vector.dot b a := by
    unfold vector.dot; ring
  have hlen : a.length * b.length = b.length * a.length := mul_comm _ _
  constructor
  · unfold vector.angle
    rw [hdot, hlen]
  · constructor
    · unfold vector.angle
      split_ifs <;> exact Real.arccos_nonneg _
    · unfold vector.angle
      split_ifs <;> exact Real.arccos_le_pi _

/-- Claim C6 witness: concrete instantiation at `a = (1,0)`, `b = (0,1)`. -/
theorem angle_symm_and_range_witness :
    vector.angle ⟨1, 0⟩ ⟨0, 1⟩ = vector.angle ⟨0, 1⟩ ⟨1, 0⟩ ∧
    0 ≤ vector.angle ⟨1, 0⟩ ⟨0, 1⟩ ∧ vector.angle ⟨1, 0⟩ ⟨0, 1⟩ ≤ Real.pi :=
  angle_symm_and_range ⟨1, 0⟩ ⟨0, 1⟩

/-- Claim C7: whenever the cosine similarity value fed to the guarded inverse
cosine lies outside `[-1, 1]`, the result is `0` (value above `1`) or `π`
(value below `-1`); in the remaining branch the argument of `arccos` is
within `[-1, 1]`, so the inverse cosine is never applied out of range; and
`vector.angle` is exactly this guard applied to the cosine similarity. -/
theorem angle_guard_safe (t : ℝ) :
    (t > 1 → acosGuard t = 0) ∧
    (t < -1 → acosGuard t = Real.pi) ∧
    (¬ t > 1 → ¬ t < -1 → -1 ≤ t ∧ t ≤ 1 ∧ acosGuard t = Real.arccos t) ∧
    (∀ a b : vector, vector.angle a b = acosGuard (vector.dot a b / (a.length * b.length))) := by
  refine ⟨?_, ?_, ?_, fun a b => rfl⟩
  · intro h
    unfold acosGuard
    rw [if_pos h, Real.arccos_one]
  · intro h
    have h1 : ¬ t > 1 := by linarith
    unfold acosGuard
    rw [if_neg h1, if_pos h, Real.arccos_neg_one]
  · intro h1 h2
    refine ⟨by linarith, by linarith, ?_⟩
    unfold acosGuard
    rw [if_neg h1, if_neg h2]

/-- Claim C7 witness: the guard at the out-of-range values `2` and `-2`,
and in range at `0`. -/
theorem angle_guard_safe_witness :
    ((2 : ℝ) > 1 ∧ acosGuard 2 = 0) ∧
    ((-2 : ℝ) < -1 ∧ acosGuard (-2) = Real.pi) ∧
    (acosGuard 0 = Real.arccos 0) :=
  ⟨⟨by norm_num, (angle_guard_safe 2).1 (by norm_num)⟩,
   ⟨by norm_num, (angle_guard_safe (-2)).2.1 (by norm_num)⟩,
   ((angle_guard_safe 0).2.2.1 (by norm_num) (by norm_num)).2.2⟩

/-- Claim C2: whenever the execution loop exits, exactly one terminal outcome
is reported, with priority: `Preempted` if a preempt is requested at exit,
else `Aborted` if shutdown is in effect, else `Succeeded`. -/
theorem outcome_priority (cfg : Config) (dest : vector) (ticks : List Tick)
    (tr : TransportState) (es : Bool) (cmds : List (ℝ × ℝ)) (o : Outcome)
    (h : execute cfg dest ticks tr es = some (cmds, o)) :
    (preemptRequested tr = true → o = Outcome.preempted) ∧
    (preemptRequested tr = false → es = true → o = Outcome.aborted) ∧
    (preemptRequested tr = false → es = false → o = Outcome.succeeded) := by
  have ho : o = reportOutcome (preemptRequested tr) es := by
    unfold execute at h
    cases hl : loopRun cfg dest ticks with
    | none => rw [hl] at h; exact Option.noConfusion h
    | some r =>
      rw [hl] at h
      exact ((Prod.mk.injEq _ _ _ _).mp (Option.some.inj h)).2.symm
  subst ho
  refine ⟨?_, ?_, ?_⟩
  · intro hp; simp [reportOutcome, hp]
  · intro hp hs; simp [reportOutcome, hp, hs]
  · intro hp hs; simp [reportOutcome, hp, hs]

/-- Claim C2 witness: a run that exits on the shutdown test and, with shutdown
still in effect and no preempt requested at the return statement, reports
`Aborted`. -/
theorem outcome_priority_witness :
    execute ⟨2, 1, 0.1⟩ ⟨0, 0⟩ [⟨true, ⟨false, false⟩, ⟨0, 0⟩, ⟨0, 0, 0, 1⟩⟩]
        ⟨false, false⟩ true = some ([], Outcome.aborted) ∧
    ((preemptRequested ⟨false, false⟩ = true → Outcome.aborted = Outcome.preempted) ∧
     (preemptRequested ⟨false, false⟩ = false → true = true → Outcome.aborted = Outcome.aborted) ∧
     (preemptRequested ⟨false, false⟩ = false → true = false → Outcome.aborted = Outcome.succeeded)) := by
  have hexec : execute ⟨2, 1, 0.1⟩ ⟨0, 0⟩ [⟨true, ⟨false, false⟩, ⟨0, 0⟩, ⟨0, 0, 0, 1⟩⟩]
      ⟨false, false⟩ true = some ([], Outcome.aborted) := by
    simp [execute, loopRun, reportOutcome, preemptRequested]
  exact ⟨hexec, outcome_priority _ _ _ _ _ _ _ hexec⟩

/-- Claim C3: if a newer goal is available at a tick (and shutdown is not in
effect at the `while` test), the loop exits at once with no command emitted,
and — the transport flags being unchanged at the return statement — the old
goal's reported outcome is `Preempted`, never `Succeeded` or `Aborted`. -/
theorem new_goal_preempted (cfg : Config) (dest : vector) (t : Tick)
    (ts : List Tick) (es : Bool)
    (h1 : t.shutdown = false) (h2 : t.transport.newGoalAvailable = true) :
    loopRun cfg dest (t :: ts) = some ([], ExitKind.newGoalExit t.transport) ∧
    execute cfg dest (t :: ts) t.transport es = some ([], Outcome.preempted) := by
  have hl : loopRun cfg dest (t :: ts) = some ([], ExitKind.newGoalExit t.transport) := by
    unfold loopRun
    simp [h1, h2]
  refine ⟨hl, ?_⟩
  unfold execute
  rw [hl]
  simp [reportOutcome, preemptRequested, h2]

/-- Claim C3 witness: concrete run where a new goal is available at the first
tick; the execution reports `Preempted` with no command emitted. -/
theorem new_goal_preempted_witness :
    (⟨false, ⟨true, false⟩, ⟨3, 4⟩, ⟨0, 0, 0, 1⟩⟩ : Tick).shutdown = false ∧
    (⟨false, ⟨true, false⟩, ⟨3, 4⟩, ⟨0, 0, 0, 1⟩⟩ : Tick).transport.newGoalAvailable = true ∧
    (loopRun ⟨2, 1, 0.1⟩ ⟨0, 0⟩ [⟨false, ⟨true, false⟩, ⟨3, 4⟩, ⟨0, 0, 0, 1⟩⟩]
        = some ([], ExitKind.newGoalExit ⟨true, false⟩) ∧
     execute ⟨2, 1, 0.1⟩ ⟨0, 0⟩ [⟨false, ⟨true, false⟩, ⟨3, 4⟩, ⟨0, 0, 0, 1⟩⟩]
        ⟨true, false⟩ false = some ([], Outcome.preempted)) :=
  ⟨rfl, rfl,
   new_goal_preempted ⟨2, 1, 0.1⟩ ⟨0, 0⟩ ⟨false, ⟨true, false⟩, ⟨3, 4⟩, ⟨0, 0, 0, 1⟩⟩
     [] false rfl rfl⟩

theorem clampCode_eq_max_min (x m : ℝ) (hm : 0 ≤ m) :
    clampCode x m = max (-m) (min x m) := by
  unfold clampCode
  rw [max_def, min_def]
  split_ifs <;> linarith

/-- Claim C4: each emitted command component is independently clamped to the
configured limit: the motion-tick command equals
`clamp(error, -max, +max)` componentwise, a distance error of `5` with
`maxLinearVelocity = 2` is emitted as exactly `2`, and an angle error of
`-3` with `maxAngularVelocity = 1` is emitted as exactly `-1`. -/
theorem command_clamped (cfg : Config) (dest pos : vector) (q : Quat)
    (hl : 0 ≤ cfg.max_linear_velocity) (ha : 0 ≤ cfg.max_angular_velocity) :
    (tickCommand cfg dest pos q).1
      = max (-cfg.max_linear_velocity)
          (min (distanceError dest pos) cfg.max_linear_velocity) ∧
    (tickCommand cfg dest pos q).2
      = max (-cfg.max_angular_velocity)
          (min (angleError dest pos q) cfg.max_angular_velocity) ∧
    clampCode 5 2 = 2 ∧ clampCode (-3) 1 = -1 := by
  refine ⟨clampCode_eq_max_min _ _ hl, clampCode_eq_max_min _ _ ha, ?_, ?_⟩
  · unfold clampCode; norm_num
  · unfold clampCode; norm_num

/-- Claim C4 witness: concrete instantiation with the default limits
`maxLinearVelocity = 2`, `maxAngularVelocity = 1`. -/
theorem command_clamped_witness :
    (0 : ℝ) ≤ 2 ∧ (0 : ℝ) ≤ 1 ∧
    ((tickCommand ⟨2, 1, 0.1⟩ ⟨7, 0⟩ ⟨0, 0⟩ ⟨0, 0, 0, 1⟩).1
        = max (-2) (min (distanceError ⟨7, 0⟩ ⟨0, 0⟩) 2) ∧
     (tickCommand ⟨2, 1, 0.1⟩ ⟨7, 0⟩ ⟨0, 0⟩ ⟨0, 0, 0, 1⟩).2
        = max (-1) (min (angleError ⟨7, 0⟩ ⟨0, 0⟩ ⟨0, 0, 0, 1⟩) 1) ∧
     clampCode 5 2 = 2 ∧ clampCode (-3) 1 = -1) :=
  ⟨by norm_num, by norm_num,
   command_clamped ⟨2, 1, 0.1⟩ ⟨7, 0⟩ ⟨0, 0⟩ ⟨0, 0, 0, 1⟩ (by norm_num) (by norm_num)⟩

/-- Claim C5: if at a tick (with no shutdown and no new goal pending) the
distance error is at most the tolerance, the loop emits exactly one zero
command, exits with the success break, and — with no cancellation pending and
no shutdown at the return statement — reports `Succeeded`; no motion command
is issued for that goal. -/
theorem goal_reached (cfg : Config) (dest : vector) (t : Tick) (ts : List Tick)
    (h1 : t.shutdown = false) (h2 : t.transport.newGoalAvailable = false)
    (h3 : distanceError dest t.pos ≤ cfg.max_distance_error) :
    loopRun cfg dest (t :: ts) = some ([(0, 0)], ExitKind.successExit) ∧
    execute cfg dest (t :: ts) ⟨false, false⟩ false
      = some ([(0, 0)], Outcome.succeeded) := by
  have hl : loopRun cfg dest (t :: ts) = some ([(0, 0)], ExitKind.successExit) := by
    unfold loopRun
    simp [h1, h2, not_lt.mpr h3]
  refine ⟨hl, ?_⟩
  unfold execute
  rw [hl]
  simp [reportOutcome, preemptRequested]

/-- Claim C5 witness: position `(0,0)`, goal `(0.05, 0)`, tolerance `0.1`:
the distance error is `0.05 ≤ 0.1`, so the run immediately succeeds with a
single zero command. -/
theorem goal_reached_witness :
    distanceError ⟨0.05, 0⟩ ⟨0, 0⟩ ≤ (0.1 : ℝ) ∧
    (loopRun ⟨2, 1, 0.1⟩ ⟨0.05, 0⟩ [⟨false, ⟨false, false⟩, ⟨0, 0⟩, ⟨0, 0, 0, 1⟩⟩]
        = some ([(0, 0)], ExitKind.successExit) ∧
     execute ⟨2, 1, 0.1⟩ ⟨0.05, 0⟩ [⟨false, ⟨false, false⟩, ⟨0, 0⟩, ⟨0, 0, 0, 1⟩⟩]
        ⟨false, false⟩ false = some ([(0, 0)], Outcome.succeeded)) := by
  have hde : distanceError ⟨0.05, 0⟩ (⟨0, 0⟩ : vector) = 0.05 := by
    simp only [distanceError, pathVec, vector.sub, vector.length, vector.dot]
    rw [show ((0.05 : ℝ) - 0) * ((0.05 : ℝ) - 0) + ((0 : ℝ) - 0) * ((0 : ℝ) - 0)
          = 0.05 * 0.05 by norm_num]
    exact Real.sqrt_mul_self (by norm_num)
  have h3 : distanceError ⟨0.05, 0⟩ (⟨0, 0⟩ : vector) ≤ (0.1 : ℝ) := by
    rw [hde]; norm_num
  exact ⟨h3, goal_reached ⟨2, 1, 0.1⟩ ⟨0.05, 0⟩
    ⟨false, ⟨false, false⟩, ⟨0, 0⟩, ⟨0, 0, 0, 1⟩⟩ [] rfl rfl h3⟩

/-- Claim C8: while a cancellation is pending, the execution loop never emits
a motion command — every command it publishes during such a run is the zero
command — and the preemption callback itself publishes a zero command and
marks the execution `Preempted`. -/
theorem preempt_blocks_commands :
    (∀ (cfg : Config) (dest : vector) (ticks : List Tick)
       (cmds : List (ℝ × ℝ)) (ek : ExitKind),
      (∀ t ∈ ticks, preemptRequested t.transport = true) →
      loopRun cfg dest ticks = some (cmds, ek) →
      ∀ c ∈ cmds, c = (0, 0)) ∧
    preempt_cb = ([(0, 0)], Outcome.preempted) := by
  refine ⟨?_, rfl⟩
  intro cfg dest ticks
  induction ticks with
  | nil =>
    intro cmds ek hall h
    simp [loopRun] at h
  | cons t ts ih =>
    intro cmds ek hall h
    unfold loopRun at h
    split_ifs at h with hs hn hd hp
    · obtain ⟨h1, h2⟩ := (Prod.mk.injEq _ _ _ _).mp (Option.some.inj h)
      intro c hc
      rw [← h1] at hc
      exact absurd hc (List.not_mem_nil c)
    · obtain ⟨h1, h2⟩ := (Prod.mk.injEq _ _ _ _).mp (Option.some.inj h)
      intro c hc
      rw [← h1] at hc
      exact absurd hc (List.not_mem_nil c)
    · cases hrec : loopRun cfg dest ts with
      | none => rw [hrec] at h; exact Option.noConfusion h
      | some r =>
        obtain ⟨cs, ek2⟩ := r
        rw [hrec] at h
        obtain ⟨h1, h2⟩ := (Prod.mk.injEq _ _ _ _).mp (Option.some.inj h)
        intro c hc
        rw [← h1] at hc
        rcases List.mem_append.mp hc with hc1 | hc2
        · exact absurd hc1 (List.not_mem_nil c)
        · exact ih cs ek2 (fun t2 ht2 => hall t2 (List.mem_cons_of_mem t ht2)) hrec c hc2
    · exact absurd (hall t (List.mem_cons_self t ts)) hp
    · obtain ⟨h1, h2⟩ := (Prod.mk.injEq _ _ _ _).mp (Option.some.inj h)
      intro c hc
      rw [← h1] at hc
      simpa using hc

/-- Claim C8 witness: a run whose single tick has an explicit preempt pending
(and the goal already reached): the only published command is the zero
command, and the preemption callback's output is the zero command plus the
`Preempted` mark. -/
theorem preempt_blocks_commands_witness :
    (∀ t ∈ [(⟨false, ⟨false, true⟩, ⟨0, 0⟩, ⟨0, 0, 0, 1⟩⟩ : Tick)],
        preemptRequested t.transport = true) ∧
    loopRun ⟨2, 1, 0.1⟩ ⟨0, 0⟩ [⟨false, ⟨false, true⟩, ⟨0, 0⟩, ⟨0, 0, 0, 1⟩⟩]
      = some ([(0, 0)], ExitKind.successExit) ∧
    (∀ c ∈ [((0 : ℝ), (0 : ℝ))], c = (0, 0)) ∧
    preempt_cb = ([(0, 0)], Outcome.preempted) := by
  have hall : ∀ t ∈ [(⟨false, ⟨false, true⟩, ⟨0, 0⟩, ⟨0, 0, 0, 1⟩⟩ : Tick)],
      preemptRequested t.transport = true := by
    intro t ht
    rw [List.mem_singleton] at ht
    subst ht
    rfl
  have hde : distanceError ⟨0, 0⟩ (⟨0, 0⟩ : vector) = 0 := by
    simp only [distanceError, pathVec, vector.sub, vector.length, vector.dot]
    rw [show ((0 : ℝ) - 0) * ((0 : ℝ) - 0) + ((0 : ℝ) - 0) * ((0 : ℝ) - 0) = 0 by norm_num]
    exact Real.sqrt_zero
  have hl : loopRun ⟨2, 1, 0.1⟩ ⟨0, 0⟩ [⟨false, ⟨false, true⟩, ⟨0, 0⟩, ⟨0, 0, 0, 1⟩⟩]
      = some ([(0, 0)], ExitKind.successExit) := by
    unfold loopRun
    norm_num [hde]
  exact ⟨hall, hl, preempt_blocks_commands.1 _ _ _ _ _ hall hl,
    preempt_blocks_commands.2⟩

/-- Claim C9: the odometry callback only overwrites the cached position and
orientation quaternion from the message; it publishes no command and leaves
every other state component (destination, limits, twist fields, error
values) unchanged. -/
theorem odometry_updates_pose_only (s : CtrlState) (msg : OdomMsg) :
    (onOdometry s msg).2 = [] ∧
    (onOdometry s msg).1.position = ⟨msg.px, msg.py⟩ ∧
    (onOdometry s msg).1.quaternion = ⟨msg.ox, msg.oy, msg.oz, msg.ow⟩ ∧
    (onOdometry s msg).1.destination = s.destination ∧
    (onOdometry s msg).1.twistLin = s.twistLin ∧
    (onOdometry s msg).1.twistAng = s.twistAng ∧
    (onOdometry s msg).1.distance_error = s.distance_error ∧
    (onOdometry s msg).1.angle_error = s.angle_error ∧
    (onOdometry s msg).1.z = s.z ∧
    (onOdometry s msg).1.w = s.w ∧
    (onOdometry s msg).1.max_linear_velocity = s.max_linear_velocity ∧
    (onOdometry s msg).1.max_angular_velocity = s.max_angular_velocity ∧
    (onOdometry s msg).1.max_distance_error = s.max_distance_error :=
  ⟨rfl, rfl, rfl, rfl, rfl, rfl, rfl, rfl, rfl, rfl, rfl, rfl, rfl⟩

/-- Claim C10: every command the loop publishes has a linear component in
`[0, max_linear_velocity]`: the distance error is a Euclidean length and
hence non-negative, so the lower clamp at `-max_linear_velocity` never
fires and the robot is never commanded to drive backwards. -/
theorem loop_linear_range :
    (∀ d m : ℝ, 0 ≤ d → 0 ≤ m → clampCode d m = (if d > m then m else d)) ∧
    (∀ dest pos : vector, 0 ≤ distanceError dest pos) ∧
    (∀ (cfg : Config) (dest : vector) (ticks : List Tick)
       (cmds : List (ℝ × ℝ)) (ek : ExitKind),
      0 ≤ cfg.max_linear_velocity →
      loopRun cfg dest ticks = some (cmds, ek) →
      ∀ c ∈ cmds, 0 ≤ c.1 ∧ c.1 ≤ cfg.max_linear_velocity) := by
  have hclamp : ∀ d m : ℝ, 0 ≤ d → 0 ≤ m → clampCode d m = (if d > m then m else d) := by
    intro d m hd hm
    unfold clampCode
    split_ifs <;> linarith
  have hdist : ∀ dest pos : vector, 0 ≤ distanceError dest pos :=
    fun dest pos => Real.sqrt_nonneg _
  refine ⟨hclamp, hdist, ?_⟩
  intro cfg dest ticks
  induction ticks with
  | nil =>
    intro cmds ek hm h
    simp [loopRun] at h
  | cons t ts ih =>
    intro cmds ek hm h
    unfold loopRun at h
    split_ifs at h with hs hn hd hp
    · obtain ⟨h1, h2⟩ := (Prod.mk.injEq _ _ _ _).mp (Option.some.inj h)
      intro c hc
      rw [← h1] at hc
      exact absurd hc (List.not_mem_nil c)
    · obtain ⟨h1, h2⟩ := (Prod.mk.injEq _ _ _ _).mp (Option.some.inj h)
      intro c hc
      rw [← h1] at hc
      exact absurd hc (List.not_mem_nil c)
    · cases hrec : loopRun cfg dest ts with
      | none => rw [hrec] at h; exact Option.noConfusion h
      | some r =>
        obtain ⟨cs, ek2⟩ := r
        rw [hrec] at h
        obtain ⟨h1, h2⟩ := (Prod.mk.injEq _ _ _ _).mp (Option.some.inj h)
        intro c hc
        rw [← h1] at hc
        rcases List.mem_append.mp hc with hc1 | hc2
        · exact absurd hc1 (List.not_mem_nil c)
        · exact ih cs ek2 hm hrec c hc2
    · cases hrec : loopRun cfg dest ts with
      | none => rw [hrec] at h; exact Option.noConfusion h
      | some r =>
        obtain ⟨cs, ek2⟩ := r
        rw [hrec] at h
        obtain ⟨h1, h2⟩ := (Prod.mk.injEq _ _ _ _).mp (Option.some.inj h)
        intro c hc
        rw [← h1] at hc
        rcases List.mem_append.mp hc with hc1 | hc2
        · have hc3 : c = tickCommand cfg dest t.pos t.quat := by simpa using hc1
          subst hc3
          have h0 := hdist dest t.pos
          have heq := hclamp (distanceError dest t.pos) cfg.max_linear_velocity h0 hm
          constructor
          · show 0 ≤ clampCode (distanceError dest t.pos) cfg.max_linear_velocity
            rw [heq]
            split_ifs with hgt
            · exact hm
            · exact h0
          · show clampCode (distanceError dest t.pos) cfg.max_linear_velocity
              ≤ cfg.max_linear_velocity
            rw [heq]
            split_ifs with hgt
            · exact le_refl _
            · exact le_of_not_lt hgt
        · exact ih cs ek2 hm hrec c hc2
    · obtain ⟨h1, h2⟩ := (Prod.mk.injEq _ _ _ _).mp (Option.some.inj h)
      intro c hc
      rw [← h1] at hc
      have hc0 : c = ((0 : ℝ), (0 : ℝ)) := by simpa using hc
      subst hc0
      exact ⟨le_refl 0, hm⟩

/-- Claim C10 witness: a concrete successful run with
`max_linear_velocity = 2`: every published command's linear component lies
in `[0, 2]`. -/
theorem loop_linear_range_witness :
    (0 : ℝ) ≤ 2 ∧
    loopRun ⟨2, 1, 0.1⟩ ⟨0, 0⟩ [⟨false, ⟨false, false⟩, ⟨0, 0⟩, ⟨0, 0, 0, 1⟩⟩]
      = some ([(0, 0)], ExitKind.successExit) ∧
    ∀ c ∈ [((0 : ℝ), (0 : ℝ))], 0 ≤ c.1 ∧ c.1 ≤ (2 : ℝ) := by
  have hde : distanceError ⟨0, 0⟩ (⟨0, 0⟩ : vector) = 0 := by
    simp only [distanceError, pathVec, vector.sub, vector.length, vector.dot]
    rw [show ((0 : ℝ) - 0) * ((0 : ℝ) - 0) + ((0 : ℝ) - 0) * ((0 : ℝ) - 0) = 0 by norm_num]
    exact Real.sqrt_zero
  have hl : loopRun ⟨2, 1, 0.1⟩ ⟨0, 0⟩ [⟨false, ⟨false, false⟩, ⟨0, 0⟩, ⟨0, 0, 0, 1⟩⟩]
      = some ([(0, 0)], ExitKind.successExit) := by
    unfold loopRun
    norm_num [hde]
  exact ⟨by norm_num, hl,
    loop_linear_range.2.2 ⟨2, 1, 0.1⟩ ⟨0, 0⟩ _ _ _ (by norm_num) hl⟩
